import Mathlib

/-!
Shallow embedding of the PostgresDAO layer (src/unnamed/part_001) of the
PromptDeck backend, together with theorems settling the frozen claims about
its query-building, validation and transaction behaviour.

Modelling conventions:
- A JS object used as a data/where mapping is a list of key/value pairs in
  its iteration order (Object.keys order).
- A generated SQL statement is a list of fragments; a placeholder such as $3
  is a distinguished fragment so that the emission order of placeholders is
  visible to the theorems.  Rendering the fragment list yields the exact
  string the source builds.
- The pg pool, its connections and the per-connection transaction context
  are modelled by an explicit state record; DAO methods are state passing
  functions that may fail, mirroring async functions that may throw.
-/

/-- A JS value bound as a query parameter.  The undef constructor models the
JS undefined value produced by reading a missing object key. -/
inductive Value where
  | int (n : Int)
  | str (s : String)
  | null
  | undef
deriving DecidableEq, Repr

/-- A row / object: key-value pairs in iteration order. -/
abbrev Row := List (String × Value)

/-- Semantics of the JS Array.prototype.join method with a separator. -/
def strJoinSep (sep : String) : List String → String
  | [] => ""
  | [a] => a
  | a :: b :: rest => a ++ sep ++ strJoinSep sep (b :: rest)

/-- A fragment of a generated SQL statement: literal text or a numbered
positional placeholder (rendered as a dollar sign followed by the number). -/
inductive Frag where
  | lit (s : String)
  | ph (n : Nat)
deriving DecidableEq, Repr

/-- Render one fragment to the text the source interpolates. -/
def renderFrag : Frag → String
  | .lit s => s
  | .ph n => "$" ++ toString n

/-- Render a fragment list to the statement string. -/
def renderFrags : List Frag → String
  | [] => ""
  | f :: rest => renderFrag f ++ renderFrags rest

/-- Join fragment lists with a literal separator, mirroring strJoinSep. -/
def joinFrags (sep : String) : List (List Frag) → List Frag
  | [] => []
  | [f] => f
  | f :: g :: rest => f ++ [Frag.lit sep] ++ joinFrags sep (g :: rest)

/-- The placeholder numbers occurring in a fragment list, in emission
order. -/
def phsOf (fs : List Frag) : List Nat :=
  fs.filterMap fun f => match f with | .ph n => some n | .lit _ => none

/-- Equality conditions such as key = $i, one per mapping entry, with the
placeholder counter threaded left to right starting at i.  This is the shape
shared by the WHERE builders of getAllRows, updateRows and deleteRows and by
the SET builder of updateRows. -/
def eqConds : List (String × Value) → Nat → List (List Frag)
  | [], _ => []
  | (k, _) :: rest, i => [Frag.lit (k ++ " = "), Frag.ph i] :: eqConds rest (i + 1)

/-- Truthiness of an optional JS number (undefined and 0 are falsy). -/
def jsTruthyInt : Option Int → Bool
  | none => false
  | some n => n != 0

/-- Truthiness of an optional JS string (undefined and the empty string are
falsy). -/
def jsTruthyStr : Option String → Bool
  | none => false
  | some s => s != ""

/-- The options object taken by getAllRows, with the source defaults. -/
structure GAOptions where
  whereMap : List (String × Value) := []
  orderBy : Option String := none
  limit : Option Int := none
  offset : Option Int := none
  select : List String := ["*"]
deriving Repr

/-- Statement and parameter list built by getAllRows: SELECT list FROM table,
then optional WHERE with AND-joined equality conditions (placeholders from 1),
optional ORDER BY, then LIMIT and OFFSET each consuming the next placeholder
and appending its value. -/
def getAllRowsQuery (tableName : String) (o : GAOptions) : List Frag × List Value :=
  let frags0 : List Frag :=
    [Frag.lit ("SELECT " ++ strJoinSep ", " o.select ++ " FROM " ++ tableName)]
  let whereF : List Frag :=
    if o.whereMap.length > 0 then
      [Frag.lit " WHERE "] ++ joinFrags " AND " (eqConds o.whereMap 1)
    else []
  let whereP : List Value := o.whereMap.map (fun p => p.2)
  let idx1 : Nat := 1 + o.whereMap.length
  let orderF : List Frag :=
    if jsTruthyStr o.orderBy then [Frag.lit (" ORDER BY " ++ o.orderBy.getD "")] else []
  let limitF : List Frag :=
    if jsTruthyInt o.limit then [Frag.lit " LIMIT ", Frag.ph idx1] else []
  let limitP : List Value :=
    if jsTruthyInt o.limit then [Value.int (o.limit.getD 0)] else []
  let idx2 : Nat := if jsTruthyInt o.limit then idx1 + 1 else idx1
  let offF : List Frag :=
    if jsTruthyInt o.offset then [Frag.lit " OFFSET ", Frag.ph idx2] else []
  let offP : List Value :=
    if jsTruthyInt o.offset then [Value.int (o.offset.getD 0)] else []
  (frags0 ++ whereF ++ orderF ++ limitF ++ offF, whereP ++ limitP ++ offP)

/-- Statement and parameter list built by insertRow.  The source builds the
statement with a template literal spanning several indented lines; the
literal fragments reproduce that whitespace exactly. -/
def insertRowQuery (tableName : String) (data : Row) (returning : List String) :
    List Frag × List Value :=
  let keys := data.map (fun p => p.1)
  let values := data.map (fun p => p.2)
  ([Frag.lit ("\n      INSERT INTO " ++ tableName ++ " (" ++ strJoinSep ", " keys
      ++ ")\n      VALUES (")]
    ++ joinFrags ", " ((List.range keys.length).map fun i => [Frag.ph (i + 1)])
    ++ [Frag.lit (")\n      RETURNING " ++ strJoinSep ", " returning ++ "\n    ")],
   values)

/-- Reading a key from a row object: the value, or undefined when absent. -/
def lookupVal (r : Row) (k : String) : Value :=
  match r.find? (fun p => p.1 == k) with
  | some p => p.2
  | none => Value.undef

/-- Per-row placeholder groups of multiInsert: one parenthesised group per
data row, the placeholder counter threaded across rows (the key count is read
from the first row only). -/
def rowPhGroups (keys : List String) : List Row → Nat → List (List Frag)
  | [], _ => []
  | _ :: rest, i =>
    ([Frag.lit "("]
        ++ joinFrags ", " ((List.range keys.length).map fun j => [Frag.ph (i + j)])
        ++ [Frag.lit ")"])
      :: rowPhGroups keys rest (i + keys.length)

/-- Per-row values of multiInsert: for each data row, the values looked up by
the keys of the first row, appended row after row. -/
def rowVals (keys : List String) : List Row → List Value
  | [] => []
  | r :: rest => (keys.map fun k => lookupVal r k) ++ rowVals keys rest

/-- Statement and parameter list built by multiInsert (after its non-empty
array check). -/
def multiInsertQuery (tableName : String) (dataArray : List Row)
    (returning : List String) : List Frag × List Value :=
  let keys := (dataArray.headD []).map (fun p => p.1)
  ([Frag.lit ("\n      INSERT INTO " ++ tableName ++ " (" ++ strJoinSep ", " keys
      ++ ")\n      VALUES ")]
    ++ joinFrags ", " (rowPhGroups keys dataArray 1)
    ++ [Frag.lit ("\n      RETURNING " ++ strJoinSep ", " returning ++ "\n    ")],
   rowVals keys dataArray)

/-- Statement and parameter list built by updateRows: SET conditions from the
data mapping (placeholders from 1), then an optional WHERE block continuing
the counter, then RETURNING.  Parameters are the data values followed by the
where values. -/
def updateRowsQuery (tableName : String) (data : Row) (whereMap : Row)
    (returning : List String) : List Frag × List Value :=
  let setF : List Frag :=
    [Frag.lit ("UPDATE " ++ tableName ++ " SET ")] ++ joinFrags ", " (eqConds data 1)
  let idx1 : Nat := 1 + data.length
  let whereF : List Frag :=
    if whereMap.length > 0 then
      [Frag.lit " WHERE "] ++ joinFrags " AND " (eqConds whereMap idx1)
    else []
  (setF ++ whereF ++ [Frag.lit (" RETURNING " ++ strJoinSep ", " returning)],
   data.map (fun p => p.2) ++ whereMap.map (fun p => p.2))

/-- Statement and parameter list built by deleteRows (after its mandatory
WHERE check). -/
def deleteRowsQuery (tableName : String) (whereMap : Row)
    (returning : List String) : List Frag × List Value :=
  ([Frag.lit ("DELETE FROM " ++ tableName), Frag.lit " WHERE "]
    ++ joinFrags " AND " (eqConds whereMap 1)
    ++ [Frag.lit (" RETURNING " ++ strJoinSep ", " returning)],
   whereMap.map (fun p => p.2))

/-- Whitespace character, for statement-text normalisation. -/
def isWS (c : Char) : Bool := c == ' ' || c == '\n' || c == '\t' || c == '\r'

/-- Split a character list into maximal whitespace-free words. -/
def wordsAux : List Char → List Char → List (List Char)
  | [], [] => []
  | [], acc => [acc.reverse]
  | c :: rest, acc =>
    if isWS c then
      if acc.isEmpty then wordsAux rest [] else acc.reverse :: wordsAux rest []
    else wordsAux rest (c :: acc)

/-- Collapse all whitespace runs of a statement string to single spaces (SQL
is whitespace insensitive; the source template literals contain newlines and
indentation). -/
def normWS (s : String) : String :=
  strJoinSep " " ((wordsAux s.data []).map fun l => String.mk l)

/-- Errors observable by a DAO caller: the generic Error objects the DAO
throws on violated preconditions, errors thrown by a transaction callback,
and errors with which the database rejects a statement. -/
inductive Err where
  | validation (msg : String)
  | thrown (msg : String)
  | driver (msg : String)
deriving DecidableEq, Repr

/-- State of the pool, of every connection, and of the database.
Connections are identified by the order of their creation.  The trace
records every statement issued, with the connection it was issued on, in
order.  A statement issued on a connection with an open transaction is
pending until that connection commits (it is discarded by a rollback); a
statement issued on any other connection is durably applied at once.  The
failOn field is the test oracle for statements the database rejects, and
results maps statement text to the row set the database returns for it. -/
structure DBState where
  nextId : Nat := 0
  idle : List Nat := []
  inUse : List Nat := []
  trace : List (Nat × String) := []
  txnOpen : List Nat := []
  pendingW : List (Nat × String × List Value) := []
  durable : List (String × List Value) := []
  failOn : List String := []
  results : List (String × List Row) := []
deriving DecidableEq, Repr

/-- A DAO computation: state passing with JS-style exceptions (an error does
not undo prior state changes). -/
def M (α : Type) : Type := DBState → Except Err α × DBState

/-- Return a pure value. -/
def pureM {α : Type} (a : α) : M α := fun s => (Except.ok a, s)

/-- Sequencing: stop at the first error, keeping the state reached. -/
def bindM {α β : Type} (x : M α) (f : α → M β) : M β := fun s =>
  match x s with
  | (Except.ok a, s1) => f a s1
  | (Except.error e, s1) => (Except.error e, s1)

/-- Throw, as a JS throw statement. -/
def throwE {α : Type} (e : Err) : M α := fun s => (Except.error e, s)

/-- JS try/catch. -/
def tryCatchE {α : Type} (body : M α) (handler : Err → M α) : M α := fun s =>
  match body s with
  | (Except.ok a, s1) => (Except.ok a, s1)
  | (Except.error e, s1) => handler e s1

/-- JS try/finally: the cleanup always runs; an error escaping the cleanup
replaces the body result. -/
def tryFinallyM {α : Type} (body : M α) (cleanup : M Unit) : M α := fun s =>
  match body s with
  | (r, s1) =>
    match cleanup s1 with
    | (Except.ok _, s2) => (r, s2)
    | (Except.error e2, s2) => (Except.error e2, s2)

/-- Pool acquisition (pool.connect): hand out an idle connection if one
exists, otherwise create a fresh one.  A connection currently held (in use)
is never handed out. -/
def acquire (s : DBState) : Nat × DBState :=
  match s.idle with
  | c :: rest => (c, { s with idle := rest, inUse := s.inUse ++ [c] })
  | [] => (s.nextId, { s with nextId := s.nextId + 1, inUse := s.inUse ++ [s.nextId] })

/-- Pool acquisition as a computation. -/
def connectM : M Nat := fun s => (Except.ok (acquire s).1, (acquire s).2)

/-- Releasing a connection back to the pool (client.release). -/
def releaseM (c : Nat) : M Unit := fun s =>
  (Except.ok (), { s with inUse := s.inUse.filter (fun x => x ≠ c), idle := s.idle ++ [c] })

/-- Look up the row set the database returns for a statement text. -/
def lookupRows (tbl : List (String × List Row)) (text : String) : List Row :=
  match tbl.find? (fun p => p.1 == text) with
  | some p => p.2
  | none => []

/-- Execute one statement on one connection (client.query).  The statement
is always traced; it then fails if the oracle rejects it; BEGIN, COMMIT and
ROLLBACK manipulate the transaction context of this connection only; any
other statement is applied pending (open transaction on this connection) or
durably (autocommit). -/
def connQuery (c : Nat) (text : String) (params : List Value) : M (List Row) := fun s =>
  let s1 := { s with trace := s.trace ++ [(c, text)] }
  if s1.failOn.contains text then
    (Except.error (Err.driver text), s1)
  else if text == "BEGIN" then
    (Except.ok [], { s1 with txnOpen := s1.txnOpen ++ [c] })
  else if text == "COMMIT" then
    (Except.ok [], { s1 with
      txnOpen := s1.txnOpen.filter (fun x => x ≠ c),
      durable := s1.durable ++ ((s1.pendingW.filter (fun p => p.1 = c)).map (fun p => p.2)),
      pendingW := s1.pendingW.filter (fun p => p.1 ≠ c) })
  else if text == "ROLLBACK" then
    (Except.ok [], { s1 with
      txnOpen := s1.txnOpen.filter (fun x => x ≠ c),
      pendingW := s1.pendingW.filter (fun p => p.1 ≠ c) })
  else if s1.txnOpen.contains c then
    (Except.ok (lookupRows s1.results text),
     { s1 with pendingW := s1.pendingW ++ [(c, text, params)] })
  else
    (Except.ok (lookupRows s1.results text),
     { s1 with durable := s1.durable ++ [(text, params)] })

/-- PostgresDAO.runQuery: acquire a pool connection, execute the statement on
it, and release the connection on every exit path (the source catch block
only logs and rethrows, so it is behaviourally the finally alone). -/
def runQuery (text : String) (params : List Value) : M (List Row) :=
  bindM connectM (fun c => tryFinallyM (connQuery c text params) (releaseM c))

/-- PostgresDAO.getAllRows: build the SELECT statement and run it. -/
def getAllRows (tableName : String) (o : GAOptions) : M (List Row) :=
  bindM (pureM (getAllRowsQuery tableName o)) (fun q => runQuery (renderFrags q.1) q.2)

/-- PostgresDAO.getSingleRow: getAllRows with limit 1; first row, or the
null sentinel (none) when no row matched. -/
def getSingleRow (tableName : String) (whereMap : Row) (select : List String) :
    M (Option Row) :=
  bindM (getAllRows tableName { whereMap := whereMap, select := select, limit := some 1 })
    (fun rows => pureM (if rows.length > 0 then some (rows.getD 0 []) else none))

/-- PostgresDAO.insertRow: build the INSERT and run it; the source returns
result.rows[0], which is undefined (none) when no row comes back. -/
def insertRow (tableName : String) (data : Row) (returning : List String) :
    M (Option Row) :=
  bindM (pureM (insertRowQuery tableName data returning))
    (fun q => bindM (runQuery (renderFrags q.1) q.2) (fun rows => pureM rows.head?))

/-- PostgresDAO.multiInsert: reject an empty data array before any statement,
otherwise build the multi-row INSERT and run it. -/
def multiInsert (tableName : String) (dataArray : List Row) (returning : List String) :
    M (List Row) :=
  if dataArray.length = 0 then
    throwE (Err.validation "Data array must be a non-empty array")
  else
    bindM (pureM (multiInsertQuery tableName dataArray returning))
      (fun q => runQuery (renderFrags q.1) q.2)

/-- PostgresDAO.updateRows: build the UPDATE and run it. -/
def updateRows (tableName : String) (data : Row) (whereMap : Row)
    (returning : List String) : M (List Row) :=
  bindM (pureM (updateRowsQuery tableName data whereMap returning))
    (fun q => runQuery (renderFrags q.1) q.2)

/-- PostgresDAO.deleteRows: reject an empty WHERE mapping before any
statement, otherwise build the DELETE and run it. -/
def deleteRows (tableName : String) (whereMap : Row) (returning : List String) :
    M (List Row) :=
  if whereMap.length = 0 then
    throwE (Err.validation "DELETE operation requires WHERE conditions for safety")
  else
    bindM (pureM (deleteRowsQuery tableName whereMap returning))
      (fun q => runQuery (renderFrags q.1) q.2)

/-- The loop body of multiUpdate: one updateRows call per data/where pair,
accumulating the updated rows. -/
def multiUpdateLoop (tableName : String) (returning : List String) :
    List (Row × Row) → List Row → M (List Row)
  | [], acc => pureM acc
  | (d, w) :: rest, acc =>
    bindM (updateRows tableName d w returning)
      (fun rows => multiUpdateLoop tableName returning rest (acc ++ rows))

/-- PostgresDAO.multiUpdate: reject an empty array, then hold one client for
BEGIN/COMMIT/ROLLBACK while every update goes through updateRows (and hence
through runQuery on its own pool connection, exactly as the source does).
A failing update triggers ROLLBACK on the held client and a rethrow; a
failure of ROLLBACK itself escapes the catch block unhandled. -/
def multiUpdate (tableName : String) (updateArray : List (Row × Row))
    (returning : List String) : M (List Row) :=
  if updateArray.length = 0 then
    throwE (Err.validation "Update array must be a non-empty array")
  else
    bindM connectM (fun c =>
      tryFinallyM
        (tryCatchE
          (bindM (connQuery c "BEGIN" []) (fun _ =>
            bindM (multiUpdateLoop tableName returning updateArray []) (fun results =>
              bindM (connQuery c "COMMIT" []) (fun _ => pureM results))))
          (fun e => bindM (connQuery c "ROLLBACK" []) (fun _ => throwE e)))
        (releaseM c))

/-- One operation a transaction callback may perform through the handle it
receives (the source passes the DAO itself to the callback, so the handle
operations are exactly the DAO CRUD helpers), plus a thrown error. -/
inductive Op where
  | opInsertRow (tableName : String) (data : Row) (returning : List String)
  | opUpdateRows (tableName : String) (data : Row) (whereMap : Row) (returning : List String)
  | opDeleteRows (tableName : String) (whereMap : Row) (returning : List String)
  | opGetAllRows (tableName : String) (o : GAOptions)
  | opThrow (msg : String)
deriving Repr

/-- Interpret one callback operation through the DAO handle. -/
def runOp : Op → M Unit
  | .opInsertRow t d ret => bindM (insertRow t d ret) (fun _ => pureM ())
  | .opUpdateRows t d w ret => bindM (updateRows t d w ret) (fun _ => pureM ())
  | .opDeleteRows t w ret => bindM (deleteRows t w ret) (fun _ => pureM ())
  | .opGetAllRows t o => bindM (getAllRows t o) (fun _ => pureM ())
  | .opThrow msg => throwE (Err.thrown msg)

/-- Interpret a callback as the sequence of operations it performs. -/
def runOps : List Op → M Unit
  | [] => pureM ()
  | o :: rest => bindM (runOp o) (fun _ => runOps rest)

/-- The try block of PostgresDAO.transaction: BEGIN on the held client, the
callback (which receives the DAO itself), COMMIT on the held client. -/
def txnBody (c : Nat) (ops : List Op) : M Unit :=
  bindM (connQuery c "BEGIN" []) (fun _ =>
    bindM (runOps ops) (fun _ =>
      bindM (connQuery c "COMMIT" []) (fun _ => pureM ())))

/-- PostgresDAO.transaction: acquire a client, run the body, on error issue
ROLLBACK on that client and rethrow the original error (a failure of
ROLLBACK itself escapes the catch block unhandled), always releasing the
client. -/
def transaction (ops : List Op) : M Unit :=
  bindM connectM (fun c =>
    tryFinallyM
      (tryCatchE (txnBody c ops)
        (fun e => bindM (connQuery c "ROLLBACK" []) (fun _ => throwE e)))
      (releaseM c))

/-- The empty initial state: no connections yet, nothing stored, a database
that accepts every statement. -/
def s0 : DBState := {}

/-- Appending fragment lists appends their placeholder sequences. -/
theorem phsOf_append (a b : List Frag) : phsOf (a ++ b) = phsOf a ++ phsOf b := by
  simp [phsOf]

/-- A lone literal fragment emits no placeholder. -/
theorem phsOf_lit (s : String) : phsOf [Frag.lit s] = [] := rfl

/-- The empty fragment list emits no placeholder. -/
theorem phsOf_nil : phsOf [] = [] := rfl

/-- A literal followed by a placeholder emits exactly that placeholder. -/
theorem phsOf_lit_ph (s : String) (n : Nat) : phsOf [Frag.lit s, Frag.ph n] = [n] := rfl

/-- A leading literal does not change the emitted placeholders. -/
theorem phsOf_cons_lit (s : String) (fs : List Frag) :
    phsOf (Frag.lit s :: fs) = phsOf fs := rfl

/-- A leading placeholder is emitted first. -/
theorem phsOf_cons_ph (n : Nat) (fs : List Frag) :
    phsOf (Frag.ph n :: fs) = n :: phsOf fs := rfl

/-- Joining with a literal separator emits the placeholders of the parts in
order. -/
theorem phsOf_joinFrags (sep : String) :
    ∀ L : List (List Frag), phsOf (joinFrags sep L) = (L.map phsOf).flatten
  | [] => rfl
  | [f] => by simp [joinFrags]
  | f :: g :: rest => by
    show phsOf (f ++ [Frag.lit sep] ++ joinFrags sep (g :: rest)) = _
    rw [phsOf_append, phsOf_append, phsOf_joinFrags sep (g :: rest)]
    simp [phsOf]

/-- Each equality condition emits exactly its own placeholder number. -/
theorem eqConds_map_phsOf :
    ∀ (w : List (String × Value)) (i : Nat),
      (eqConds w i).map phsOf = (List.range' i w.length).map (fun n => [n])
  | [], _ => rfl
  | (k, v) :: rest, i => by
    simp [eqConds, List.range'_succ, eqConds_map_phsOf rest (i + 1)]
    rfl

/-- Flattening singleton lists is the identity. -/
theorem flatten_singletons : ∀ l : List Nat, (l.map (fun n => [n])).flatten = l
  | [] => rfl
  | n :: rest => by simp [flatten_singletons rest]

/-- A joined block of equality conditions starting at counter i emits the
placeholder numbers i, i+1, ..., one per condition, in order. -/
theorem phsOf_eqConds (sep : String) (w : List (String × Value)) (i : Nat) :
    phsOf (joinFrags sep (eqConds w i)) = List.range' i w.length := by
  rw [phsOf_joinFrags, eqConds_map_phsOf, flatten_singletons]

/-- Flattening mapped singletons is mapping. -/
theorem flatten_map_singleton {α β : Type} (f : α → β) :
    ∀ l : List α, ((l.map fun a => [f a]).flatten : List β) = l.map f
  | [] => rfl
  | a :: rest => by simp [flatten_map_singleton f rest]

/-- Placeholder sequencing of the getAllRows builder: the emitted numbers are
exactly 1, ..., n where n is the number of bound parameters. -/
theorem getAllRowsQuery_phs (t : String) (o : GAOptions) :
    phsOf (getAllRowsQuery t o).1 = List.range' 1 (getAllRowsQuery t o).2.length := by
  unfold getAllRowsQuery
  by_cases hw : o.whereMap.length > 0
  · by_cases hl : jsTruthyInt o.limit = true <;>
    by_cases ho : jsTruthyInt o.offset = true <;>
    by_cases hor : jsTruthyStr o.orderBy = true <;>
      simp [hw, hl, ho, hor, phsOf_append, phsOf_eqConds, phsOf_lit, phsOf_lit_ph, phsOf_nil,
            phsOf_cons_lit, phsOf_cons_ph, List.range'_1_concat, Nat.add_assoc]
  · have hw0 : o.whereMap.length = 0 := by omega
    by_cases hl : jsTruthyInt o.limit = true <;>
    by_cases ho : jsTruthyInt o.offset = true <;>
    by_cases hor : jsTruthyStr o.orderBy = true <;>
      simp [hw, hw0, hl, ho, hor, phsOf_append, phsOf_eqConds, phsOf_lit, phsOf_lit_ph, phsOf_nil,
            phsOf_cons_lit, phsOf_cons_ph, List.range'_1_concat, Nat.add_assoc]

/-- Placeholder sequencing of the updateRows builder. -/
theorem updateRowsQuery_phs (t : String) (d w : Row) (ret : List String) :
    phsOf (updateRowsQuery t d w ret).1
      = List.range' 1 (updateRowsQuery t d w ret).2.length := by
  unfold updateRowsQuery
  by_cases hw : w.length > 0
  · simp [hw, phsOf_append, phsOf_eqConds, phsOf_lit, phsOf_lit_ph, phsOf_nil,
          phsOf_cons_lit, phsOf_cons_ph, List.range'_append_1]
    omega
  · have hw0 : w.length = 0 := by omega
    simp [hw, hw0, phsOf_append, phsOf_eqConds, phsOf_lit, phsOf_lit_ph, phsOf_nil,
          phsOf_cons_lit, phsOf_cons_ph]

/-- Placeholder sequencing of the deleteRows builder. -/
theorem deleteRowsQuery_phs (t : String) (w : Row) (ret : List String) :
    phsOf (deleteRowsQuery t w ret).1
      = List.range' 1 (deleteRowsQuery t w ret).2.length := by
  unfold deleteRowsQuery
  simp [phsOf_append, phsOf_eqConds, phsOf_lit, phsOf_lit_ph, phsOf_nil,
        phsOf_cons_lit, phsOf_cons_ph]

/-- The placeholder groups of multiInsert emit i, i+1, ... consecutively,
one number per key and row. -/
theorem rowPhGroups_phs (keys : List String) :
    ∀ (rows : List Row) (i : Nat),
      ((rowPhGroups keys rows i).map phsOf).flatten
        = List.range' i (rows.length * keys.length)
  | [], i => by simp [rowPhGroups]
  | r :: rest, i => by
    simp only [rowPhGroups, List.map_cons, List.flatten_cons,
      rowPhGroups_phs keys rest (i + keys.length)]
    rw [phsOf_append, phsOf_append, phsOf_joinFrags]
    simp only [List.map_map]
    rw [show ((fun f => phsOf f) ∘ fun j => [Frag.ph (i + j)]) = fun j => [i + j] from rfl]
    rw [flatten_map_singleton (fun j => i + j) (List.range keys.length)]
    rw [← List.range'_eq_map_range]
    simp [phsOf_lit, phsOf_nil, List.range'_append_1, Nat.succ_mul, Nat.add_comm]

/-- The value list of multiInsert has one entry per key and row. -/
theorem rowVals_len (keys : List String) :
    ∀ rows : List Row, (rowVals keys rows).length = rows.length * keys.length
  | [] => by simp [rowVals]
  | r :: rest => by
    simp [rowVals, rowVals_len keys rest, Nat.succ_mul, Nat.add_comm]

/-- Placeholder sequencing of the multiInsert builder. -/
theorem multiInsertQuery_phs (t : String) (arr : List Row) (ret : List String) :
    phsOf (multiInsertQuery t arr ret).1
      = List.range' 1 (multiInsertQuery t arr ret).2.length := by
  unfold multiInsertQuery
  rw [phsOf_append, phsOf_append, phsOf_joinFrags]
  simp [phsOf_lit, phsOf_nil, rowPhGroups_phs, rowVals_len]

/-- The condition block is the enumeration of the mapping from index i. -/
theorem eqConds_eq_enumFrom :
    ∀ (w : List (String × Value)) (i : Nat),
      eqConds w i
        = (List.enumFrom i w).map (fun p => [Frag.lit (p.2.1 ++ " = "), Frag.ph p.1])
  | [], _ => rfl
  | (k, v) :: rest, i => by
    simp [eqConds, eqConds_eq_enumFrom rest (i + 1)]

/-- Acquiring a connection does not touch the trace. -/
theorem acquire_trace (s : DBState) : (acquire s).2.trace = s.trace := by
  unfold acquire
  cases s.idle <;> rfl

/-- Every client.query call appends exactly one trace entry, whether it
succeeds or fails. -/
theorem connQuery_trace (c : Nat) (text : String) (params : List Value) (s : DBState) :
    (connQuery c text params s).2.trace = s.trace ++ [(c, text)] := by
  unfold connQuery
  dsimp only
  repeat' split
  all_goals rfl

/-- Every runQuery call issues exactly one statement, on the connection it
acquires from the pool. -/
theorem runQuery_trace (text : String) (params : List Value) (s : DBState) :
    (runQuery text params s).2.trace = s.trace ++ [((acquire s).1, text)] := by
  simp only [runQuery, bindM, connectM, tryFinallyM, releaseM]
  simp [connQuery_trace, acquire_trace]

/-- A pure continuation does not change the trace of a computation. -/
theorem bindM_pure_trace {α β : Type} (x : M α) (f : α → β) (s : DBState) :
    (bindM x (fun a => pureM (f a)) s).2.trace = (x s).2.trace := by
  rcases hx : x s with ⟨r, s1⟩
  cases r <;> simp [bindM, pureM, hx]

/-- Behaviour of a ROLLBACK statement on a connection: traced, then either
rejected by the oracle or closing the transaction context of that
connection. -/
theorem connQuery_rollback (c : Nat) (s : DBState) :
    connQuery c "ROLLBACK" [] s
      = if s.failOn.contains "ROLLBACK" = true
        then (Except.error (Err.driver "ROLLBACK"),
              { s with trace := s.trace ++ [(c, "ROLLBACK")] })
        else (Except.ok [],
              { s with trace := s.trace ++ [(c, "ROLLBACK")],
                       txnOpen := s.txnOpen.filter (fun x => x ≠ c),
                       pendingW := s.pendingW.filter (fun p => p.1 ≠ c) }) := by
  unfold connQuery
  dsimp only
  by_cases h : s.failOn.contains "ROLLBACK" = true <;> simp [h]

deriving instance DecidableEq for Except

/-- Claim C1 (code bug).  The spec demands that every statement issued by a
transaction callback through the handle it receives executes on the same
physical connection as the BEGIN, COMMIT and ROLLBACK of the scope.  The
source instead passes the DAO itself to the callback, and every CRUD helper
reaches the database through runQuery, which acquires a new pool connection
(necessarily distinct from the held one, which is not idle).  Evaluating a
transaction whose callback performs a single insert shows BEGIN and COMMIT
on connection 0 while the insert runs on the freshly acquired connection 1,
and the scope still reports success. -/
theorem thmC1_transaction_connection :
    (transaction [Op.opInsertRow "t" [("a", Value.int 1)] ["*"]] s0).2.trace
      = [(0, "BEGIN"),
         (1, "\n      INSERT INTO t (a)\n      VALUES ($1)\n      RETURNING *\n    "),
         (0, "COMMIT")]
    ∧ (transaction [Op.opInsertRow "t" [("a", Value.int 1)] ["*"]] s0).1 = Except.ok () := by
  decide

/-- Claim C2 (code bug).  The spec demands that when a transaction callback
throws after a successful insert, or an updateBatch entry fails partway, all
writes of the scope are rolled back and the original error is observed.  In
the code the writes run on autocommit pool connections, so ROLLBACK on the
connection held by the scope undoes nothing: after a callback that inserts
and then throws, the caller does observe the original error, but the
inserted row remains durably visible; after a multiUpdate whose second
update is rejected, the first update likewise remains durably visible. -/
theorem thmC2_rollback_leaves_writes :
    (transaction [Op.opInsertRow "t" [("a", Value.int 1)] ["*"], Op.opThrow "boom"] s0).1
      = Except.error (Err.thrown "boom")
    ∧ (transaction [Op.opInsertRow "t" [("a", Value.int 1)] ["*"], Op.opThrow "boom"] s0).2.durable
      = [("\n      INSERT INTO t (a)\n      VALUES ($1)\n      RETURNING *\n    ", [Value.int 1])]
    ∧ (multiUpdate "t"
        [([("a", Value.int 1)], [("id", Value.int 1)]),
         ([("b", Value.int 2)], [("id", Value.int 2)])]
        ["*"] { s0 with failOn := ["UPDATE t SET b = $1 WHERE id = $2 RETURNING *"] }).1
      = Except.error (Err.driver "UPDATE t SET b = $1 WHERE id = $2 RETURNING *")
    ∧ (multiUpdate "t"
        [([("a", Value.int 1)], [("id", Value.int 1)]),
         ([("b", Value.int 2)], [("id", Value.int 2)])]
        ["*"] { s0 with failOn := ["UPDATE t SET b = $1 WHERE id = $2 RETURNING *"] }).2.durable
      = [("UPDATE t SET a = $1 WHERE id = $2 RETURNING *", [Value.int 1, Value.int 1])] := by
  decide

/-- Claim C3, counterexample.  The claim says a failure of ROLLBACK itself is
logged but suppressed and the original error is re-raised.  In the code the
ROLLBACK call in the catch block is not guarded, so when the callback throws
boom and ROLLBACK is rejected, the caller observes the ROLLBACK driver error
and not the original error. -/
theorem cexC3_rollback_error_masks_original :
    (transaction [Op.opThrow "boom"] { s0 with failOn := ["ROLLBACK"] }).1
      = Except.error (Err.driver "ROLLBACK")
    ∧ (transaction [Op.opThrow "boom"] { s0 with failOn := ["ROLLBACK"] }).1
      ≠ Except.error (Err.thrown "boom") := by
  decide

/-- Claim C3, amended.  When the body of a transaction scope fails with some
error, the scope issues ROLLBACK on its connection; if ROLLBACK succeeds the
original error is re-raised to the caller, but if ROLLBACK itself fails the
ROLLBACK error propagates instead, replacing the original error. -/
theorem thmC3_rollback_error_handling (ops : List Op) (s : DBState) (e : Err)
    (hbody : (txnBody (acquire s).1 ops ((acquire s).2)).1 = Except.error e) :
    ("ROLLBACK" ∉ (txnBody (acquire s).1 ops ((acquire s).2)).2.failOn →
        (transaction ops s).1 = Except.error e)
    ∧ ("ROLLBACK" ∈ (txnBody (acquire s).1 ops ((acquire s).2)).2.failOn →
        (transaction ops s).1 = Except.error (Err.driver "ROLLBACK")) := by
  rcases hb : txnBody (acquire s).1 ops ((acquire s).2) with ⟨r, sB⟩
  rw [hb] at hbody
  dsimp at hbody
  subst hbody
  constructor <;> intro hc <;> dsimp only at hc <;>
    simp [transaction, bindM, connectM, tryCatchE, tryFinallyM, releaseM, throwE, hb,
          connQuery_rollback, hc]

/-- Claim C3, witness: a transaction whose callback throws boom against a
database that accepts ROLLBACK re-raises the original boom error. -/
theorem witC3_rollback_error_handling :
    (txnBody (acquire s0).1 [Op.opThrow "boom"] ((acquire s0).2)).1
      = Except.error (Err.thrown "boom")
    ∧ (transaction [Op.opThrow "boom"] s0).1 = Except.error (Err.thrown "boom") :=
  ⟨by decide,
   (thmC3_rollback_error_handling [Op.opThrow "boom"] s0 (Err.thrown "boom") (by decide)).1
     (by decide)⟩

/-- Claim C4.  For a non-empty where mapping, the getAllRows builder appends
one AND-joined equality condition per key, in the mapping iteration order,
with placeholder numbers counting up from 1 (the enumeration indices), and
binds the corresponding values in the same order; for an empty where mapping
the WHERE clause is omitted entirely. -/
theorem thmC4_selectMany_where_clause (t : String) (w : List (String × Value))
    (sel : List String) :
    (w ≠ [] →
      (getAllRowsQuery t { whereMap := w, select := sel }).1
        = [Frag.lit ("SELECT " ++ strJoinSep ", " sel ++ " FROM " ++ t), Frag.lit " WHERE "]
          ++ joinFrags " AND "
              ((List.enumFrom 1 w).map fun p => [Frag.lit (p.2.1 ++ " = "), Frag.ph p.1])
      ∧ (getAllRowsQuery t { whereMap := w, select := sel }).2 = w.map (fun p => p.2))
    ∧ (w = [] →
      getAllRowsQuery t { whereMap := w, select := sel }
        = ([Frag.lit ("SELECT " ++ strJoinSep ", " sel ++ " FROM " ++ t)], [])) := by
  constructor
  · intro h
    have hw : w.length > 0 := List.length_pos.mpr h
    unfold getAllRowsQuery
    simp [hw, jsTruthyInt, jsTruthyStr, eqConds_eq_enumFrom]
  · intro h
    subst h
    rfl

/-- Claim C4, witness: the two-key mapping with keys a and b renders the
statement SELECT * FROM t WHERE a = one AND b = two with the dollar-numbered
placeholders 1 and 2 and binds the two values in order. -/
theorem witC4_selectMany_where_clause :
    (([("a", Value.int 1), ("b", Value.int 2)] : List (String × Value)) ≠ [])
    ∧ renderFrags (getAllRowsQuery "t"
        { whereMap := [("a", Value.int 1), ("b", Value.int 2)], select := ["*"] }).1
      = "SELECT * FROM t WHERE a = $1 AND b = $2"
    ∧ (getAllRowsQuery "t"
        { whereMap := [("a", Value.int 1), ("b", Value.int 2)], select := ["*"] }).2
      = [Value.int 1, Value.int 2] := by
  refine ⟨by decide, ?_, ?_⟩
  · have h := (thmC4_selectMany_where_clause "t"
      [("a", Value.int 1), ("b", Value.int 2)] ["*"]).1 (by decide)
    rw [h.1]
    decide
  · exact ((thmC4_selectMany_where_clause "t"
      [("a", Value.int 1), ("b", Value.int 2)] ["*"]).1 (by decide)).2.trans (by decide)

/-- Claim C5.  For every table name, returning list and state, deleteRows
with an empty where mapping fails with the unsafe-delete validation error
and leaves the state (in particular the statement trace) untouched: the
error is raised before any statement is sent. -/
theorem thmC5_delete_empty_where_validation (t : String) (ret : List String) (s : DBState) :
    deleteRows t [] ret s
      = (Except.error (Err.validation "DELETE operation requires WHERE conditions for safety"),
         s) := rfl

/-- Claim C6, counterexample.  The claim says an empty data mapping given to
insertRow raises a ValidationError before any statement is sent; instead the
call succeeds in issuing the malformed statement INSERT INTO t () VALUES ()
to the database (one trace entry, no validation error). -/
theorem cexC6_insertRow_empty_data_statement :
    (insertRow "t" [] ["*"] s0).1 = Except.ok none
    ∧ (insertRow "t" [] ["*"] s0).2.trace
      = [(0, "\n      INSERT INTO t ()\n      VALUES ()\n      RETURNING *\n    ")] := by
  decide

/-- Claim C6, amended.  Only the empty insert-many array is rejected before
any statement is sent (multiInsert fails with its validation error leaving
the state untouched); insertRow and updateRows perform no empty-data check
and always send their (malformed) statement to the database, as witnessed
by the trace growing by exactly that statement. -/
theorem thmC6_precondition_checks :
    (∀ (t : String) (ret : List String) (s : DBState),
      multiInsert t [] ret s
        = (Except.error (Err.validation "Data array must be a non-empty array"), s))
    ∧ (∀ (t : String) (ret : List String) (s : DBState),
      (insertRow t [] ret s).2.trace
        = s.trace ++ [((acquire s).1, renderFrags (insertRowQuery t [] ret).1)])
    ∧ (∀ (t : String) (w : Row) (ret : List String) (s : DBState),
      (updateRows t [] w ret s).2.trace
        = s.trace ++ [((acquire s).1, renderFrags (updateRowsQuery t [] w ret).1)]) := by
  refine ⟨fun t ret s => rfl, fun t ret s => ?_, fun t w ret s => ?_⟩
  · show (bindM (runQuery (renderFrags (insertRowQuery t [] ret).1) (insertRowQuery t [] ret).2)
        (fun rows => pureM rows.head?) s).2.trace = _
    rw [bindM_pure_trace, runQuery_trace]
  · show (runQuery (renderFrags (updateRowsQuery t [] w ret).1)
        (updateRowsQuery t [] w ret).2 s).2.trace = _
    rw [runQuery_trace]

/-- Claim C7.  getSingleRow is getAllRows with limit 1 on the same state:
whatever row list that call returns, getSingleRow returns its first row when
one exists and the null sentinel (none) when the list is empty, with the
same final state; a failure of the underlying call propagates unchanged. -/
theorem thmC7_selectOne_limit1_sentinel (t : String) (w : Row) (sel : List String)
    (s : DBState) :
    (∀ rows s1,
      getAllRows t { whereMap := w, select := sel, limit := some 1 } s = (Except.ok rows, s1) →
      getSingleRow t w sel s
        = (Except.ok (if rows.length > 0 then some (rows.getD 0 []) else none), s1))
    ∧ (∀ e s1,
      getAllRows t { whereMap := w, select := sel, limit := some 1 } s = (Except.error e, s1) →
      getSingleRow t w sel s = (Except.error e, s1)) := by
  constructor <;> intro x s1 h <;> simp [getSingleRow, bindM, pureM, h]

/-- Claim C7, witness: with a database returning one matching row the first
row comes back, and with no matching rows the result is the none sentinel;
both with the state of the underlying limit-1 getAllRows call. -/
theorem witC7_selectOne_limit1_sentinel :
    getSingleRow "t" [("id", Value.int 1)] ["*"]
        { s0 with results := [("SELECT * FROM t WHERE id = $1 LIMIT $2", [[("id", Value.int 1)]])] }
      = (Except.ok (some [("id", Value.int 1)]),
         (getAllRows "t" { whereMap := [("id", Value.int 1)], select := ["*"], limit := some 1 }
            { s0 with
              results := [("SELECT * FROM t WHERE id = $1 LIMIT $2", [[("id", Value.int 1)]])] }).2)
    ∧ getSingleRow "t" [("id", Value.int 1)] ["*"] s0
      = (Except.ok none,
         (getAllRows "t" { whereMap := [("id", Value.int 1)], select := ["*"], limit := some 1 }
            s0).2) := by
  constructor
  · have h := (thmC7_selectOne_limit1_sentinel "t" [("id", Value.int 1)] ["*"]
        { s0 with
          results := [("SELECT * FROM t WHERE id = $1 LIMIT $2", [[("id", Value.int 1)]])] }).1
        [[("id", Value.int 1)]]
        ((getAllRows "t" { whereMap := [("id", Value.int 1)], select := ["*"], limit := some 1 }
            { s0 with
              results := [("SELECT * FROM t WHERE id = $1 LIMIT $2", [[("id", Value.int 1)]])] }).2)
        (by decide)
    rw [h]
    decide
  · have h := (thmC7_selectOne_limit1_sentinel "t" [("id", Value.int 1)] ["*"] s0).1 []
        ((getAllRows "t" { whereMap := [("id", Value.int 1)], select := ["*"], limit := some 1 }
            s0).2)
        (by decide)
    rw [h]
    decide

/-- Claim C8.  The insertRow call on the mapping with keys a and b and the
star returning list produces, up to SQL-insignificant whitespace, exactly
the statement INSERT INTO table (a, b) VALUES with placeholders 1 and 2 and
RETURNING star, binding the two values in column order. -/
theorem thmC8_insertOne_statement_shape :
    normWS (renderFrags (insertRowQuery "table" [("a", Value.int 1), ("b", Value.int 2)] ["*"]).1)
      = "INSERT INTO table (a, b) VALUES ($1, $2) RETURNING *"
    ∧ (insertRowQuery "table" [("a", Value.int 1), ("b", Value.int 2)] ["*"]).2
      = [Value.int 1, Value.int 2] := by
  decide

/-- Claim C9.  For each CRUD builder and every input, the placeholders
emitted into the generated statement, read in statement order, are exactly
the numbers 1 through n where n is the length of the bound parameter list,
so the Nth emitted placeholder corresponds to the Nth appended value. -/
theorem thmC9_placeholder_sequencing :
    (∀ (t : String) (o : GAOptions),
      phsOf (getAllRowsQuery t o).1 = List.range' 1 (getAllRowsQuery t o).2.length)
    ∧ (∀ (t : String) (d w : Row) (ret : List String),
      phsOf (updateRowsQuery t d w ret).1 = List.range' 1 (updateRowsQuery t d w ret).2.length)
    ∧ (∀ (t : String) (w : Row) (ret : List String),
      phsOf (deleteRowsQuery t w ret).1 = List.range' 1 (deleteRowsQuery t w ret).2.length)
    ∧ (∀ (t : String) (arr : List Row) (ret : List String),
      phsOf (multiInsertQuery t arr ret).1 = List.range' 1 (multiInsertQuery t arr ret).2.length) :=
  ⟨getAllRowsQuery_phs, updateRowsQuery_phs, deleteRowsQuery_phs, multiInsertQuery_phs⟩

/-- Claim C10.  A limit of 0 (respectively an offset of 0) is falsy in the
source condition, so the LIMIT (respectively OFFSET) clause is omitted and
no parameter is bound for it: the builder and the full getAllRows call
behave exactly as with no limit (respectively no offset) at all. -/
theorem thmC10_limit_offset_zero_omitted (t : String) (w : Row) (ob : Option String)
    (lim off : Option Int) (sel : List String) :
    (getAllRowsQuery t { whereMap := w, orderBy := ob, limit := some 0, offset := off, select := sel }
       = getAllRowsQuery t { whereMap := w, orderBy := ob, limit := none, offset := off, select := sel })
    ∧ (getAllRowsQuery t { whereMap := w, orderBy := ob, limit := lim, offset := some 0, select := sel }
       = getAllRowsQuery t { whereMap := w, orderBy := ob, limit := lim, offset := none, select := sel })
    ∧ (∀ s, getAllRows t { whereMap := w, orderBy := ob, limit := some 0, offset := off, select := sel } s
       = getAllRows t { whereMap := w, orderBy := ob, limit := none, offset := off, select := sel } s)
    ∧ (∀ s, getAllRows t { whereMap := w, orderBy := ob, limit := lim, offset := some 0, select := sel } s
       = getAllRows t { whereMap := w, orderBy := ob, limit := lim, offset := none, select := sel } s) :=
  ⟨rfl, rfl, fun _ => rfl, fun _ => rfl⟩
